import Mathlib

/-!
Verification of the greeting utility presented in
`module06_software_projects/06_04_packaging.ipynb`.

The notebook packages a `greetings` library whose `greet` function builds a
colourised greeting string, together with a `greet` command-line entry point.
The embedding below covers: the `greet` function of `greetings/greeter.py`
(exercised by `tests/test_greeter.py` and by the notebook's call and
command-line transcripts), the variant of `greet` listed in the notebook's
final Documentation section, a step-by-step fallible rendering of `greet`'s
body, and the command-line argument handling of `greetings/command.py`.
-/

/-! ANSI colour constants the code obtains from the `colorama` package.
The unit test in the notebook notes that codes like `"\x1b[32m"` are colours. -/

def Fore.RED : String := "\x1b[31m"

def Fore.GREEN : String := "\x1b[32m"

def Fore.YELLOW : String := "\x1b[33m"

def Fore.BLUE : String := "\x1b[34m"

def Fore.WHITE : String := "\x1b[37m"

def Back.BLACK : String := "\x1b[40m"

def Back.BLUE : String := "\x1b[44m"

def Back.WHITE : String := "\x1b[47m"

def Style.BRIGHT : String := "\x1b[1m"

/-- Modelled from the spec: the installed package's `greetings/greeter.py` is
not under `src/`; only its unit test (`tests/test_greeter.py`, listed in the
notebook), the notebook's call and command-line transcripts, and a
Documentation-section listing are.  Per the spec, `greet` chooses a salutation
phrase from the polite flag, prepends fixed presentation markup, optionally
inserts a title token (Python's `if title:` is false exactly for the empty
string), and appends the marked-up personal and family names; the markup
tokens are the ones that reproduce the three recorded unit-test outputs
byte-exactly. -/
def greet (personal family : String) (title : String := "") (polite : Bool := false) : String :=
  let greeting := if polite then "How do you do, " else "Hey, "
  let greeting := Back.BLACK ++ Fore.YELLOW ++ greeting
  let greeting :=
    if title = "" then greeting
    else greeting ++ (Back.BLUE ++ Fore.WHITE ++ title ++ " ")
  greeting ++ (Back.WHITE ++ Style.BRIGHT ++ Fore.RED ++ personal ++ " " ++ family)

/-- The variant of `greet` listed in the notebook's final Documentation
section (the last markdown code block of `06_04_packaging.ipynb`): it colours
the salutation with `Fore.GREEN`, an optional title with `Fore.BLUE`, the
names with `Fore.RED`, and ends the greeting with a full stop. -/
def greet_doc (personal family : String) (title : String := "") (polite : Bool := false) : String :=
  let greeting := if polite then "How do you do, " else "Hey, "
  let greeting := Fore.GREEN ++ greeting
  let greeting :=
    if title = "" then greeting
    else greeting ++ (Fore.BLUE ++ title ++ " ")
  greeting ++ (Fore.RED ++ personal ++ " " ++ family ++ ".")

/-- A Python string concatenation as a fallible step: for `str` operands it
always returns a value and never raises. -/
def pyStrAdd (a b : String) : Except String String := Except.ok (a ++ b)

/-- A Python truthiness test on a `str`: it never raises, and the empty string
is the only falsy string. -/
def pyTruthy (s : String) : Except String Bool :=
  Except.ok (if s = "" then false else true)

/-- Modelled from the spec: the body of `greet` from `greetings/greeter.py`
(not under `src/`) rendered statement by statement with every string operation
as a fallible Python step, to record which steps could raise. -/
def greetE (personal family : String) (title : String := "") (polite : Bool := false) :
    Except String String := do
  let greeting := if polite then "How do you do, " else "Hey, "
  let greeting ← pyStrAdd (← pyStrAdd Back.BLACK Fore.YELLOW) greeting
  let b ← pyTruthy title
  let greeting ←
    if b then
      pyStrAdd greeting (← pyStrAdd (← pyStrAdd (← pyStrAdd Back.BLUE Fore.WHITE) title) " ")
    else
      pure greeting
  pyStrAdd greeting
    (← pyStrAdd (← pyStrAdd (← pyStrAdd (← pyStrAdd (← pyStrAdd Back.WHITE Style.BRIGHT)
      Fore.RED) personal) " ") family)

/-- Arguments of the `greet` command after parsing: two positional names, an
optional title value and a politeness switch, per the recorded help text
`usage: greet [-h] [--title TITLE] [--polite] personal family`. -/
structure ParsedArgs where
  personal : String
  family : String
  title : String
  polite : Bool
deriving DecidableEq, Repr

/-- State of the argument scan of the `greet` command line: positional values
seen so far, the title and polite options, and whether the previous token was
`--title`/`-t` (so that the current token is its value). -/
structure ScanState where
  positionals : List String
  title : String
  polite : Bool
  awaitingTitle : Bool
deriving DecidableEq, Repr

/-- Modelled from the spec: `greetings/command.py` is not under `src/`; only
the recorded `greet --help` text and the call transcripts are.  One token of
the command line is scanned as the help text describes: `--polite`/`-p` is a
switch, `--title`/`-t` takes the following token as its value, and any other
token is a positional argument. -/
def scanTok (st : ScanState) (a : String) : ScanState :=
  if st.awaitingTitle then { st with title := a, awaitingTitle := false }
  else if a = "--polite" || a = "-p" then { st with polite := true }
  else if a = "--title" || a = "-t" then { st with awaitingTitle := true }
  else { st with positionals := st.positionals ++ [a] }

/-- Modelled from the spec: parsing a `greet` command line maps the first two
positional arguments onto `greet`'s `personal` and `family` parameters and the
two options onto `title` and `polite`; per the spec, the only parsing failure
is a missing required positional argument. -/
def parseArgs (argv : List String) : Option ParsedArgs :=
  let st := argv.foldl scanTok ⟨[], "", false, false⟩
  match st.positionals with
  | p :: f :: _ => some ⟨p, f, st.title, st.polite⟩
  | _ => none

/-- Modelled from the spec: the `greet` command entry point parses the command
line and, on success, writes the string `greet` returns (with the trailing
newline of `print`) to standard output. -/
def runGreet (argv : List String) : Option String :=
  (parseArgs argv).map fun a => greet a.personal a.family a.title a.polite ++ "\n"

/-- Whether the pattern occurs at the head of the list. -/
def startsWithChars : List Char → List Char → Bool
  | [], _ => true
  | _ :: _, [] => false
  | p :: ps, c :: cs => p = c && startsWithChars ps cs

/-- Whether the pattern occurs anywhere inside the list. -/
def hasSubChars (pat : List Char) : List Char → Bool
  | [] => startsWithChars pat []
  | c :: cs => startsWithChars pat (c :: cs) || hasSubChars pat cs

/-! Theorems. -/

/-- Helper: `String.append` acts as append on the underlying character
lists. -/
theorem data_append (a b : String) : (a ++ b).data = a.data ++ b.data := rfl

/-- Helper: splitting the recorded salutation markup into the colorama codes
that build it. -/
theorem split_pre :
    ("\x1b[40m\x1b[33m" : String).data =
      ("\x1b[40m" : String).data ++ ("\x1b[33m" : String).data := by decide

/-- Helper: splitting the recorded name markup into the colorama codes that
build it. -/
theorem split_name :
    ("\x1b[47m\x1b[1m\x1b[31m" : String).data =
      ("\x1b[47m" : String).data ++ (("\x1b[1m" : String).data ++
        ("\x1b[31m" : String).data) := by decide

/-- Helper: splitting the recorded title markup into the colorama codes that
build it. -/
theorem split_title :
    ("\x1b[44m\x1b[37m" : String).data =
      ("\x1b[44m" : String).data ++ ("\x1b[37m" : String).data := by decide

/-- Helper: splitting the recorded `Dr` title token into the colorama codes
and fields that build it. -/
theorem split_title_dr :
    ("\x1b[44m\x1b[37mDr " : String).data =
      ("\x1b[44m" : String).data ++ (("\x1b[37m" : String).data ++
        (("Dr" : String).data ++ (" " : String).data)) := by decide

/-- C1: with `personal = "James"`, `family = "Hetherington"` and the title and
polite parameters left at their defaults, `greet` returns exactly the byte
string `"\x1b[40m\x1b[33mHey, \x1b[47m\x1b[1m\x1b[31mJames Hetherington"`,
with nothing after the family name. -/
theorem greet_james_default :
    greet "James" "Hetherington" =
      "\x1b[40m\x1b[33mHey, \x1b[47m\x1b[1m\x1b[31mJames Hetherington" := by decide

/-- Helper: splitting the recorded markup-plus-salutation run into the
colorama code and fields that build it. -/
theorem split_pre_hey :
    ("\x1b[40m\x1b[33mHey, " : String).data =
      ("\x1b[40m" : String).data ++ (("\x1b[33m" : String).data ++
        ("Hey, " : String).data) := by decide

/-- Helper: appending the same string on the right is injective. -/
theorem str_append_right_cancel {a b c : String} (h : a ++ c = b ++ c) : a = b :=
  String.ext (List.append_cancel_right (congrArg String.data h))

/-- Helper: `String.append` is associative. -/
theorem str_append_assoc (a b c : String) : a ++ b ++ c = a ++ (b ++ c) :=
  String.ext (List.append_assoc a.data b.data c.data)

/-- C2 counterexample: the output of `greet` is not, byte for byte, a fixed
markup string, then a salutation chosen by the polite flag, then (only with a
title) a title token, then directly the personal name, a space and the family
name — no choice of the fixed parts makes that decomposition hold, because a
further fixed markup token stands between the optional title token and the
personal name. -/
theorem greet_layout_refuted :
    ¬ ∃ (P : String) (S : Bool → String) (T : String → String),
      (∀ (p f : String) (pol : Bool), greet p f "" pol = P ++ S pol ++ (p ++ " " ++ f)) ∧
      (∀ (p f t : String) (pol : Bool), t ≠ "" →
        greet p f t pol = P ++ S pol ++ T t ++ (p ++ " " ++ f)) := by
  rintro ⟨P, S, T, h0, h1⟩
  have e0 : greet "James" "Hetherington" =
      "\x1b[40m\x1b[33mHey, \x1b[47m\x1b[1m\x1b[31m" ++
        ("James" ++ " " ++ "Hetherington") := by decide
  have e1 : greet "James" "Hetherington" "Dr" =
      "\x1b[40m\x1b[33mHey, \x1b[44m\x1b[37mDr \x1b[47m\x1b[1m\x1b[31m" ++
        ("James" ++ " " ++ "Hetherington") := by decide
  have q0 : P ++ S false = "\x1b[40m\x1b[33mHey, \x1b[47m\x1b[1m\x1b[31m" :=
    str_append_right_cancel ((h0 "James" "Hetherington" false).symm.trans e0)
  have q1 : P ++ S false ++ T "Dr" =
      "\x1b[40m\x1b[33mHey, \x1b[44m\x1b[37mDr \x1b[47m\x1b[1m\x1b[31m" :=
    str_append_right_cancel
      ((h1 "James" "Hetherington" "Dr" false (by decide)).symm.trans e1)
  rw [q0] at q1
  have tl : List.take 29
      (("\x1b[40m\x1b[33mHey, \x1b[47m\x1b[1m\x1b[31m" : String).data ++ (T "Dr").data) =
      ("\x1b[40m\x1b[33mHey, \x1b[47m\x1b[1m\x1b[31m" : String).data :=
    List.take_left' (by decide)
  have c := congrArg (fun s : String => List.take 29 s.data) q1
  exact absurd (tl.symm.trans c) (by decide)

/-- C2 (amended): for every input, `greet` returns exactly the fixed markup
string `"\x1b[40m\x1b[33m"`, then the salutation chosen by the polite flag,
then (only when a title is given) the title token
`"\x1b[44m\x1b[37m" ++ title ++ " "`, then the fixed name-markup token
`"\x1b[47m\x1b[1m\x1b[31m"`, then the personal name, a single space and the
family name. -/
theorem greet_layout :
    ∀ (p f t : String) (pol : Bool),
      (t = "" → greet p f t pol =
        "\x1b[40m\x1b[33m" ++ ((if pol then "How do you do, " else "Hey, ") ++
          ("\x1b[47m\x1b[1m\x1b[31m" ++ (p ++ (" " ++ f))))) ∧
      (t ≠ "" → greet p f t pol =
        "\x1b[40m\x1b[33m" ++ ((if pol then "How do you do, " else "Hey, ") ++
          (("\x1b[44m\x1b[37m" ++ (t ++ " ")) ++
            ("\x1b[47m\x1b[1m\x1b[31m" ++ (p ++ (" " ++ f)))))) := by
  intro p f t pol
  constructor
  · intro ht
    subst ht
    apply String.ext
    cases pol <;>
      simp [greet, Back.BLACK, Fore.YELLOW, Back.WHITE, Style.BRIGHT, Fore.RED, data_append,
        split_pre, split_name, List.append_assoc]
  · intro ht
    apply String.ext
    cases pol <;>
      simp [greet, Back.BLACK, Fore.YELLOW, Back.BLUE, Fore.WHITE, Back.WHITE, Style.BRIGHT,
        Fore.RED, ht, data_append, split_pre, split_title, split_name, List.append_assoc]

/-- C2 witness: the amended layout at the unit test's titled input. -/
theorem greet_layout_witness :
    greet "James" "Hetherington" "Dr" =
      "\x1b[40m\x1b[33m" ++ ((if false then "How do you do, " else "Hey, ") ++
        (("\x1b[44m\x1b[37m" ++ ("Dr" ++ " ")) ++
          ("\x1b[47m\x1b[1m\x1b[31m" ++ ("James" ++ (" " ++ "Hetherington"))))) :=
  (greet_layout "James" "Hetherington" "Dr" false).2 (by decide)

/-- C3: for every personal and family name, the polite output equals the
default output with the salutation phrase `"Hey, "` replaced by
`"How do you do, "` and every byte before and after the salutation
unchanged. -/
theorem greet_polite_subst :
    ∀ p f : String,
      greet p f "" false =
        "\x1b[40m\x1b[33m" ++ ("Hey, " ++
          ("\x1b[47m\x1b[1m\x1b[31m" ++ (p ++ (" " ++ f)))) ∧
      greet p f "" true =
        "\x1b[40m\x1b[33m" ++ ("How do you do, " ++
          ("\x1b[47m\x1b[1m\x1b[31m" ++ (p ++ (" " ++ f)))) := by
  intro p f
  constructor <;>
  · apply String.ext
    simp [greet, Back.BLACK, Fore.YELLOW, Back.WHITE, Style.BRIGHT, Fore.RED, data_append,
      split_pre, split_name, List.append_assoc]

/-- C4 counterexample: `greet` with `title = "Dr"` is not the default output
with one fixed token inserted immediately before the personal name — for no
fixed token and no split of the default output right before the personal name
does that insertion give the titled output, because the title token is
inserted before the name-markup token `"\x1b[47m\x1b[1m\x1b[31m"` rather than
directly before the personal name. -/
theorem greet_title_refuted :
    ¬ ∃ TOK : String, ∀ p f : String, ∃ pre : String,
      greet p f = pre ++ (p ++ " " ++ f) ∧
      greet p f "Dr" = pre ++ (TOK ++ (p ++ " " ++ f)) := by
  rintro ⟨TOK, h⟩
  obtain ⟨pre, hA, hB⟩ := h "James" "Hetherington"
  have e0 : greet "James" "Hetherington" =
      "\x1b[40m\x1b[33mHey, \x1b[47m\x1b[1m\x1b[31m" ++
        ("James" ++ " " ++ "Hetherington") := by decide
  have e1 : greet "James" "Hetherington" "Dr" =
      "\x1b[40m\x1b[33mHey, \x1b[44m\x1b[37mDr \x1b[47m\x1b[1m\x1b[31m" ++
        ("James" ++ " " ++ "Hetherington") := by decide
  have q0 : pre = "\x1b[40m\x1b[33mHey, \x1b[47m\x1b[1m\x1b[31m" :=
    str_append_right_cancel (hA.symm.trans e0)
  rw [← str_append_assoc] at hB
  have q1 : pre ++ TOK =
      "\x1b[40m\x1b[33mHey, \x1b[44m\x1b[37mDr \x1b[47m\x1b[1m\x1b[31m" :=
    str_append_right_cancel (hB.symm.trans e1)
  rw [q0] at q1
  have tl : List.take 29
      (("\x1b[40m\x1b[33mHey, \x1b[47m\x1b[1m\x1b[31m" : String).data ++ TOK.data) =
      ("\x1b[40m\x1b[33mHey, \x1b[47m\x1b[1m\x1b[31m" : String).data :=
    List.take_left' (by decide)
  have c := congrArg (fun s : String => List.take 29 s.data) q1
  exact absurd (tl.symm.trans c) (by decide)

/-- C4 (amended): for every personal and family name, `greet` with
`title = "Dr"` equals the default output with the single fixed token
`"\x1b[44m\x1b[37mDr "` (the title token including its colour codes and
trailing space) inserted immediately before the fixed name-markup token
`"\x1b[47m\x1b[1m\x1b[31m"` that directly precedes the personal name, and
every other byte of the output unchanged. -/
theorem greet_title_inserted :
    ∀ p f : String,
      greet p f =
        "\x1b[40m\x1b[33mHey, " ++
          ("\x1b[47m\x1b[1m\x1b[31m" ++ (p ++ (" " ++ f))) ∧
      greet p f "Dr" =
        "\x1b[40m\x1b[33mHey, " ++
          ("\x1b[44m\x1b[37mDr " ++ ("\x1b[47m\x1b[1m\x1b[31m" ++ (p ++ (" " ++ f)))) := by
  intro p f
  constructor <;>
  · apply String.ext
    simp [greet, Back.BLACK, Fore.YELLOW, Back.BLUE, Fore.WHITE, Back.WHITE, Style.BRIGHT,
      Fore.RED, data_append, split_pre_hey, split_title_dr, split_name, List.append_assoc]

/-- C5: the `greet` listed in the notebook's Documentation section does not
compute the function the unit test and command-line transcripts record — at
the test's first input the documented definition yields
`"\x1b[32mHey, \x1b[31mJames Hetherington."` while the installed package's
output is `"\x1b[40m\x1b[33mHey, \x1b[47m\x1b[1m\x1b[31mJames Hetherington"`. -/
theorem greet_doc_disagrees :
    greet_doc "James" "Hetherington" = "\x1b[32mHey, \x1b[31mJames Hetherington." ∧
    greet "James" "Hetherington" =
      "\x1b[40m\x1b[33mHey, \x1b[47m\x1b[1m\x1b[31mJames Hetherington" ∧
    greet_doc "James" "Hetherington" ≠ greet "James" "Hetherington" :=
  ⟨by decide, by decide, by decide⟩

/-- C6: the command-line wrapper maps its parsed arguments directly onto
`greet`'s parameters — whenever parsing succeeds, the text written to standard
output is exactly the string `greet` returns for those parameters — and the
three recorded transcript invocations produce exactly the three recorded
output lines. -/
theorem runGreet_maps :
    (∀ (argv : List String) (a : ParsedArgs), parseArgs argv = some a →
      runGreet argv = some (greet a.personal a.family a.title a.polite ++ "\n")) ∧
    runGreet ["James", "Hetherington"] =
      some "\x1b[40m\x1b[33mHey, \x1b[47m\x1b[1m\x1b[31mJames Hetherington\n" ∧
    runGreet ["--polite", "James", "Hetherington"] =
      some "\x1b[40m\x1b[33mHow do you do, \x1b[47m\x1b[1m\x1b[31mJames Hetherington\n" ∧
    runGreet ["James", "Hetherington", "--title", "Dr"] =
      some "\x1b[40m\x1b[33mHey, \x1b[44m\x1b[37mDr \x1b[47m\x1b[1m\x1b[31mJames Hetherington\n" := by
  refine ⟨?_, by decide, by decide, by decide⟩
  intro argv a h
  simp [runGreet, h]

/-- C6 witness: the mapping property at the first transcript invocation. -/
theorem runGreet_maps_witness :
    runGreet ["James", "Hetherington"] =
      some (greet "James" "Hetherington" "" false ++ "\n") :=
  runGreet_maps.1 ["James", "Hetherington"] ⟨"James", "Hetherington", "", false⟩ (by decide)

/-- C7: every invocation whose scan yields at least two positional arguments
succeeds and produces output, and an invocation fails exactly when its scan
yields fewer than the two required positional arguments — no other failure
mode exists in the model. -/
theorem runGreet_failure :
    (∀ argv : List String,
      2 ≤ ((argv.foldl scanTok ⟨[], "", false, false⟩).positionals).length →
        ∃ s, runGreet argv = some s) ∧
    (∀ argv : List String,
      runGreet argv = none ↔
        ((argv.foldl scanTok ⟨[], "", false, false⟩).positionals).length < 2) := by
  have key : ∀ argv : List String,
      runGreet argv = none ↔
        ((argv.foldl scanTok ⟨[], "", false, false⟩).positionals).length < 2 := by
    intro argv
    simp only [runGreet, parseArgs]
    cases hl : (argv.foldl scanTok ⟨[], "", false, false⟩).positionals with
    | nil => simp
    | cons p rest =>
      cases rest with
      | nil => simp
      | cons f rest2 => simp
  refine ⟨?_, key⟩
  intro argv h
  cases hrg : runGreet argv with
  | none => exact absurd ((key argv).mp hrg) (by omega)
  | some s => exact ⟨s, rfl⟩

/-- C7 witness: an invocation with both positional arguments succeeds. -/
theorem runGreet_failure_witness :
    2 ≤ (((["James", "Hetherington"] : List String).foldl scanTok
        ⟨[], "", false, false⟩).positionals).length ∧
    ∃ s, runGreet ["James", "Hetherington"] = some s :=
  ⟨by decide, runGreet_failure.1 ["James", "Hetherington"] (by decide)⟩

/-- C8: `greet` is deterministic — any two calls with equal personal, family,
title and polite arguments return equal output strings (the embedding renders
it as a pure function of those four arguments alone). -/
theorem greet_deterministic :
    ∀ (p₁ f₁ t₁ : String) (b₁ : Bool) (p₂ f₂ t₂ : String) (b₂ : Bool),
      p₁ = p₂ → f₁ = f₂ → t₁ = t₂ → b₁ = b₂ →
        greet p₁ f₁ t₁ b₁ = greet p₂ f₂ t₂ b₂ := by
  intro p₁ f₁ t₁ b₁ p₂ f₂ t₂ b₂ hp hf ht hb
  rw [hp, hf, ht, hb]

/-- C8 witness: determinism at the unit test's first input. -/
theorem greet_deterministic_witness :
    greet "James" "Hetherington" "" false = greet "James" "Hetherington" "" false :=
  greet_deterministic "James" "Hetherington" "" false "James" "Hetherington" "" false
    rfl rfl rfl rfl

/-- C9: passing an explicitly empty title is the same as omitting the title:
the output equals the default output, it is the fixed markup and salutation
followed by the name-markup token and the two names, and the fixed part of
that output contains neither of the title colour codes `"\x1b[44m"` and
`"\x1b[37m"`. -/
theorem greet_empty_title :
    ∀ p f : String,
      greet p f "" false = greet p f ∧
      greet p f = "\x1b[40m\x1b[33mHey, " ++
        ("\x1b[47m\x1b[1m\x1b[31m" ++ (p ++ (" " ++ f))) ∧
      hasSubChars ("\x1b[44m" : String).data
        ("\x1b[40m\x1b[33mHey, \x1b[47m\x1b[1m\x1b[31m" : String).data = false ∧
      hasSubChars ("\x1b[37m" : String).data
        ("\x1b[40m\x1b[33mHey, \x1b[47m\x1b[1m\x1b[31m" : String).data = false := by
  intro p f
  refine ⟨rfl, ?_, by decide, by decide⟩
  apply String.ext
  simp [greet, Back.BLACK, Fore.YELLOW, Back.WHITE, Style.BRIGHT, Fore.RED, data_append,
    split_pre_hey, split_name, List.append_assoc]

/-- C10: `greet` is total over its public interface — rendered with every
string operation of its body as a fallible Python step, it returns a value
(the string `greet` computes) and never an exception, for all personal,
family, title and polite arguments. -/
theorem greetE_total :
    ∀ (p f t : String) (pol : Bool), greetE p f t pol = Except.ok (greet p f t pol) := by
  intro p f t pol
  by_cases ht : t = ""
  · subst ht
    rfl
  · simp only [greetE, greet, pyStrAdd, pyTruthy, ht, ite_false, if_neg, if_false]
    rfl
